import Mathlib

/-!
Verification development for the AutoState repository: a finite-state-machine
analysis and code-generation engine with a TypeScript front end.  The data
model below is translated from the TypeScript type declarations
(src/unnamed/part_001); the front-end handlers are translated from the React
components; the back-end engine operations (verify, simulate, generate,
toGraph) are absent from the checked-in sources and are modelled from the
specification, as marked on each definition.

JavaScript string primitives used by the front end (trim, split on newline,
includes, substring, first-occurrence replace) are embedded as executable
functions over the character list of a `String`.
-/

namespace AutoState

/-! ## Data model (src/unnamed/part_001) -/

/-- Provenance tag on a transition, from the TypeScript union type
`TransitionSource = "user" | "llm_inferred"`. -/
inductive TransitionSource where
  | user
  | llm_inferred
deriving DecidableEq, Repr

/-- A guarded transition, from the TypeScript interface `Transition`
(src/unnamed/part_001 lines 3-10).  `guard` is optional free text. -/
structure Transition where
  state : String
  event : String
  guard : Option String
  action : String
  next_state : String
  source : TransitionSource
deriving DecidableEq, Repr

/-- An FSM model, from the TypeScript interface `FSMModel`
(src/unnamed/part_001 lines 18-25).  The optional `id` and `metadata`
fields play no role in the engine semantics and are omitted. -/
structure FSMModel where
  title : String
  states : List String
  initial_state : String
  transitions : List Transition
deriving DecidableEq, Repr

/-- One entry of `missing_transitions`, per the specification:
`{state, event, reason}` records. -/
structure MissingTransition where
  state : String
  event : String
  reason : String
deriving DecidableEq, Repr

/-- Result of static verification, from the TypeScript interface
`VerificationResult` (src/unnamed/part_001 lines 27-34). -/
structure VerificationResult where
  is_deterministic : Bool
  is_complete : Bool
  unreachable_states : List String
  missing_transitions : List MissingTransition
  warnings : List String
  errors : List String
deriving DecidableEq, Repr

/-- One step of a simulation trace, from the TypeScript interface
`SimulationStep` (src/unnamed/part_001 lines 48-54). -/
structure SimulationStep where
  current_state : String
  event : String
  next_state : String
  action : String
  guard_evaluated : Bool
deriving DecidableEq, Repr

/-- Output of code generation, from the TypeScript interface
`GeneratedCode` (src/unnamed/part_001 lines 36-40). -/
structure GeneratedCode where
  language : String
  filename : String
  content : String
deriving DecidableEq, Repr

/-- A parse-scenarios request, from the TypeScript interface `ScenarioSpec`
(src/unnamed/part_001 lines 12-16), whose `language` field has the literal
type `"en"`. -/
structure ScenarioSpec where
  title : String
  language : String
  scenarios : List String
deriving DecidableEq, Repr

/-! ## JavaScript string primitives, embedded over character lists -/

/-- Whitespace as stripped by the JavaScript `trim` on the inputs that occur
here: space, tab, newline and carriage return. -/
def isWhitespaceChar (c : Char) : Bool :=
  c = ' ' || c = '\t' || c = '\n' || c = '\r'

/-- Embedding of the JavaScript `String.prototype.trim`: strip whitespace
from both ends. -/
def jsTrim (s : String) : String :=
  ⟨((s.data.dropWhile isWhitespaceChar).reverse.dropWhile isWhitespaceChar).reverse⟩

/-- Split a character list on a separator character; the JavaScript
`split(sep)` semantics (an empty input yields one empty chunk). -/
def splitOnChar (c : Char) : List Char → List (List Char)
  | [] => [[]]
  | x :: xs =>
    let rest := splitOnChar c xs
    if x = c then [] :: rest
    else (x :: rest.headD []) :: rest.tail

/-- Embedding of the JavaScript `label.split('\n')`. -/
def splitLines (s : String) : List String :=
  (splitOnChar '\n' s.data).map (fun l => ⟨l⟩)

/-- Embedding of the JavaScript `substring(0, n)`: the first `n`
characters. -/
def strTake (s : String) (n : Nat) : String :=
  ⟨s.data.take n⟩

/-- Embedding of the JavaScript `line.includes(c)` for a one-character
needle. -/
def charContained (c : Char) (s : String) : Bool :=
  s.data.contains c

/-- Remove the first occurrence of a character from a character list. -/
def removeFirstChar (c : Char) : List Char → List Char
  | [] => []
  | x :: xs => if x = c then xs else x :: removeFirstChar c xs

/-- Embedding of the JavaScript `actionLine.replace('/', '')`: only the
first occurrence is removed. -/
def removeFirstSlash (s : String) : String :=
  ⟨removeFirstChar '/' s.data⟩

/-! ## Verification engine (modelled from the spec)

The back-end verification engine is not among the checked-in sources; only
its result type and its HTTP client are.  The definitions in this section
are modelled from the specification, section 4.2. -/

/-- Modelled from the spec: one round of the breadth-first reachability
traversal.  The visited set is extended with the `next_state` of every
transition whose `state` is already visited (edges are `state → next_state`
per transition regardless of guard or event). -/
def stepReach (ts : List Transition) (visited : List String) : List String :=
  visited ++
    (ts.filter
      (fun t => decide (t.state ∈ visited ∧ t.next_state ∉ visited))).map
      (fun t => t.next_state)

/-- Modelled from the spec: the visited-set-bounded traversal, iterated a
fixed number of rounds (one per state suffices for a breadth-first
fixed point). -/
def reachIter (ts : List Transition) : Nat → List String → List String
  | 0, visited => visited
  | n + 1, visited => reachIter ts n (stepReach ts visited)

/-- Modelled from the spec: the set of states visited by the breadth-first
traversal starting at `initial_state`. -/
def reachableStates (m : FSMModel) : List String :=
  reachIter m.transitions m.states.length [m.initial_state]

/-- Modelled from the spec: all events ever referenced by any transition
(`relevant_events`), deduplicated. -/
def relevantEvents (m : FSMModel) : List String :=
  (m.transitions.map (fun t => t.event)).dedup

/-- Modelled from the spec: the completeness analysis.  For each reachable
state, for each relevant event, if no transition `(state, event, _)` exists,
a `{state, event, reason}` record is appended. -/
def missingTransitions (m : FSMModel) : List MissingTransition :=
  (m.states.filter (fun s => decide (s ∈ reachableStates m))).flatMap
    (fun s =>
      (relevantEvents m).filterMap
        (fun e =>
          if m.transitions.any (fun t => t.state == s && t.event == e) then
            none
          else
            some ⟨s, e, "no transition for event in reachable state"⟩))

/-- Modelled from the spec: the group of transitions leaving `s` on `e`,
used by the determinism analysis. -/
def transitionsFor (m : FSMModel) (s e : String) : List Transition :=
  m.transitions.filter (fun t => t.state == s && t.event == e)

/-- Modelled from the spec: a `(state, event)` group is conflict-free when it
has at most one member, or all members carry non-empty, pairwise distinct
guard strings (the conservative heuristic of section 4.2). -/
def groupDeterministic (grp : List Transition) : Bool :=
  grp.length ≤ 1 ||
    (grp.all (fun t => (t.guard.getD "") ≠ "") &&
      decide (grp.map (fun t => t.guard)).Nodup)

/-- Modelled from the spec: the determinism analysis, requiring every
`(state, event)` group to be conflict-free. -/
def isDeterministic (m : FSMModel) : Bool :=
  m.transitions.all (fun t => groupDeterministic (transitionsFor m t.state t.event))

/-- Modelled from the spec: `verify(model) → VerificationResult`.
`unreachable_states = states − visited`; `is_complete` is true exactly when
`missing_transitions` is empty; warnings note states with no outgoing
transitions; errors note a missing initial state caught lazily. -/
def verify (m : FSMModel) : VerificationResult :=
  let missing := missingTransitions m
  { is_deterministic := isDeterministic m
    is_complete := missing.isEmpty
    unreachable_states :=
      m.states.filter (fun s => decide (s ∉ reachableStates m))
    missing_transitions := missing
    warnings :=
      (m.states.filter
        (fun s => !m.transitions.any (fun t => t.state == s))).map
        (fun s => "state has no outgoing transitions: " ++ s)
    errors :=
      if m.initial_state ∈ m.states then []
      else ["initial_state not in states"] }

/-! ## Simulation engine (modelled from the spec)

The back-end simulation engine is not among the checked-in sources; only
its request/step types and its HTTP client are.  The definitions in this
section are modelled from the specification, section 4.3. -/

/-- Modelled from the spec: the transitions matching `(current_state, event)`
are selected by declaration order — the first transition in the model's
transition list wins. -/
def findTransition (ts : List Transition) (s e : String) : Option Transition :=
  ts.find? (fun t => t.state == s && t.event == e)

/-- Modelled from the spec: the resolved start state — the `initial_state`
parameter if given and a member of `states`, else `model.initial_state`. -/
def resolveStart (m : FSMModel) (start : Option String) : String :=
  match start with
  | some s => if s ∈ m.states then s else m.initial_state
  | none => m.initial_state

/-- Modelled from the spec: `simulate` consumes the input events in order;
zero matches stops the run (fail-soft, no exception); otherwise the first
matching transition fires, `guard_evaluated` records the presence of a
non-empty guard, and `next_state` becomes the new current state. -/
def simulateFrom (m : FSMModel) (s : String) : List String → List SimulationStep
  | [] => []
  | e :: rest =>
    match findTransition m.transitions s e with
    | none => []
    | some t =>
      { current_state := s
        event := e
        next_state := t.next_state
        action := t.action
        guard_evaluated := (t.guard.getD "") ≠ "" } :: simulateFrom m t.next_state rest

/-- Modelled from the spec: `simulate(model, initial_state?, events)`. -/
def simulate (m : FSMModel) (start : Option String) (events : List String) :
    List SimulationStep :=
  simulateFrom m (resolveStart m start) events

/-- Every event in order finds a matching transition from the state reached
so far: the condition, from the specification's simulation length invariant,
under which the trace covers the whole input. -/
def allEventsMatch (m : FSMModel) (s : String) : List String → Bool
  | [] => true
  | e :: rest =>
    match findTransition m.transitions s e with
    | none => false
    | some t => allEventsMatch m t.next_state rest

/-! ## Code generation engine (modelled from the spec)

The back-end generation engine is not among the checked-in sources; only the
`GenerationRequest` type (whose `template` field is the union
`"python_class" | "yaml_policy" | "c_state_machine"`), the `GeneratedCode`
type and the HTTP client are.  The definitions here are modelled from the
specification, sections 4.1, 4.4 and 7. -/

/-- Error taxonomy of generation, from the specification, section 7. -/
inductive GenError where
  | UnknownTemplate
  | InvalidModel
deriving DecidableEq, Repr

/-- The closed set of recognized code-generation template ids, from the
TypeScript union type of `GenerationRequest.template`
(src/unnamed/part_001 line 44). -/
def recognizedTemplates : List String :=
  ["python_class", "yaml_policy", "c_state_machine"]

/-- Modelled from the spec: structural validation (section 4.1 / section 3
invariants) — `initial_state ∈ states`, every transition's `state` and
`next_state` declared, and no empty state/event/next_state field. -/
def validateModel (m : FSMModel) : Bool :=
  decide (m.initial_state ∈ m.states) &&
    m.transitions.all
      (fun t =>
        decide (t.state ∈ m.states) && decide (t.next_state ∈ m.states) &&
          t.state != "" && t.event != "" && t.next_state != "")

/-- Modelled from the spec: one dispatch/lookup line per transition,
preserving transition order, shared by the emitters below. -/
def transitionLine (t : Transition) : String :=
  t.state ++ " --" ++ t.event ++
    (match t.guard with
     | some g => if g ≠ "" then " [" ++ g ++ "]" else ""
     | none => "") ++
    "--> " ++ t.next_state ++ " / " ++ t.action

/-- Modelled from the spec: the body emitted for a model — a header naming
the model plus exactly one entry per transition in declaration order. -/
def emitBody (m : FSMModel) : String :=
  String.intercalate "\n"
    (("machine " ++ m.title ++ " initial " ++ m.initial_state) ::
      m.transitions.map transitionLine)

/-- Modelled from the spec: `generate(model, template_id, options) →
GeneratedCode | UnknownTemplate | InvalidModel`.  Validation runs before any
emission is attempted (section 4.1: called implicitly before every other
operation), so a failure produces no partial output; the template dispatch
is a closed case split over the three recognized ids. -/
def generate (m : FSMModel) (template : String) : Except GenError GeneratedCode :=
  if validateModel m = false then .error .InvalidModel
  else if template = "python_class" then
    .ok ⟨"python", "fsm_machine.py", "# python class\n" ++ emitBody m⟩
  else if template = "yaml_policy" then
    .ok ⟨"yaml", "fsm_policy.yaml", "# yaml policy\n" ++ emitBody m⟩
  else if template = "c_state_machine" then
    .ok ⟨"c", "fsm_machine.c", "/* c table */\n" ++ emitBody m⟩
  else .error .UnknownTemplate

/-- The example model of the specification, section 8: states idle, running
and error, initial idle, three unguarded user transitions. -/
def exampleModel : FSMModel :=
  { title := "System State Machine"
    states := ["idle", "running", "error"]
    initial_state := "idle"
    transitions :=
      [⟨"idle", "start", none, "initialize_system", "running", .user⟩,
       ⟨"running", "error_occurs", none, "log_error", "error", .user⟩,
       ⟨"error", "reset", none, "clear_errors", "idle", .user⟩] }

/-- A structurally invalid model: its initial state is not declared. -/
def badModel : FSMModel :=
  { title := "bad"
    states := ["a"]
    initial_state := "b"
    transitions := [] }

/-! ## Application state handlers (src/unnamed/part_002, App component) -/

/-- The pieces of the App component state touched by the suggestion
handlers: the current model and the pending suggestion list. -/
structure AppState where
  currentFSM : Option FSMModel
  suggestions : List Transition
deriving DecidableEq, Repr

/-- Modelled from the spec: the accept-transition endpoint returns the
updated FSMModel, the accepted transition appended to the transition
list. -/
def acceptTransition (m : FSMModel) (t : Transition) : FSMModel :=
  { m with transitions := m.transitions ++ [t] }

/-- From src/unnamed/part_002 lines 220-230 (`handleAcceptTransition`): with
a current model present, the model is replaced by the accept endpoint's
result and the accepted suggestion is filtered out; without one, nothing
happens. -/
def handleAcceptTransition (st : AppState) (t : Transition) : AppState :=
  match st.currentFSM with
  | none => st
  | some m =>
    { currentFSM := some (acceptTransition m t)
      suggestions := st.suggestions.filter (fun s => decide (s ≠ t)) }

/-- From src/unnamed/part_002 lines 232-234 (`handleRejectTransition`): the
rejected suggestion is filtered out of the suggestion list; the current
model is not touched. -/
def handleRejectTransition (st : AppState) (t : Transition) : AppState :=
  { st with suggestions := st.suggestions.filter (fun s => decide (s ≠ t)) }

/-! ## In-place edit of a transition (src/unnamed/part_002, TransitionsList)

`updateTransition` spreads the edited array into a new array but then
assigns a field of the object at `index` — JavaScript object references, so
the write lands on the very object also referenced by the previously held
arrays.  The embedding makes the reference structure explicit: a heap of
transition objects addressed by cell number, and arrays as lists of cell
numbers. -/

/-- An editable field of a Transition, from the `keyof Transition` index of
`updateTransition` as used by the table inputs. -/
inductive TField where
  | state
  | event
  | guard
  | action
  | next_state
deriving DecidableEq, Repr

/-- Assign one field of a transition value. -/
def setField (t : Transition) (f : TField) (v : String) : Transition :=
  match f with
  | .state => { t with state := v }
  | .event => { t with event := v }
  | .guard => { t with guard := some v }
  | .action => { t with action := v }
  | .next_state => { t with next_state := v }

/-- A heap of transition objects; cell `r` is the object referenced by
`r`. -/
structure HeapModel where
  cells : List Transition
deriving DecidableEq, Repr

/-- Dereference a transition object. -/
def readRef (h : HeapModel) (r : Nat) : Option Transition :=
  h.cells.get? r

/-- Field assignment through a reference: the heap cell is updated in
place. -/
def writeRef (h : HeapModel) (r : Nat) (f : TField) (v : String) : HeapModel :=
  match h.cells.get? r with
  | none => h
  | some t => ⟨h.cells.set r (setField t f v)⟩

/-- From src/unnamed/part_002 lines 33-37 (`updateTransition`):
`const updated = [...editedTransitions]` copies the array of references
(the same cell numbers), then `(updated[index] as any)[field] = value`
writes the field through the shared reference. -/
def updateTransition (h : HeapModel) (editedTransitions : List Nat)
    (index : Nat) (f : TField) (v : String) : HeapModel × List Nat :=
  let updated := editedTransitions
  match updated.get? index with
  | none => (h, updated)
  | some r => (writeRef h r f v, updated)

/-- A one-transition heap for exercising the edit handler. -/
def heapTransition : Transition :=
  ⟨"idle", "start", none, "initialize_system", "running", .user⟩

/-- The heap holding `heapTransition` in cell 0. -/
def heap0 : HeapModel :=
  ⟨[heapTransition]⟩

/-- The parent component's `transitions` array: a single reference to
cell 0, shared with `editedTransitions` (which the component initializes to
the very same array). -/
def parentTransitionRefs : List Nat :=
  [0]

/-! ## Graph projection and front-end edge processing -/

/-- A node of the visualization graph: one per state, tagged when it is the
initial state. -/
structure GraphNode where
  id : String
  label : String
  initial : Bool
deriving DecidableEq, Repr

/-- An edge of the visualization graph: one per transition.  `src`/`dst`
stand for the JavaScript `from`/`to` fields; `provenance` is the transition
`source` tag; `title` is the tooltip. -/
structure GraphEdge where
  src : String
  dst : String
  label : String
  title : Option String
  provenance : TransitionSource
deriving DecidableEq, Repr

/-- Modelled from the spec: the composite edge label carrying
event/guard/action — the event on the first line, the guard bracketed on its
own line when present, the action on a line after a slash. -/
def compositeLabel (t : Transition) : String :=
  t.event ++
    (match t.guard with
     | some g => if g ≠ "" then "\n[" ++ g ++ "]" else ""
     | none => "") ++
    "\n/ " ++ t.action

/-- Modelled from the spec: `toGraph(model) → {nodes, edges}` — one node per
state (tagged `initial` for the initial state), one edge per transition in
declaration order, tagged with `source` provenance and carrying the
composite label. -/
def toGraph (m : FSMModel) : List GraphNode × List GraphEdge :=
  (m.states.map (fun s => ⟨s, s, s == m.initial_state⟩),
   m.transitions.map
     (fun t => ⟨t.state, t.next_state, compositeLabel t, none, t.source⟩))

/-- From src/frontend/src/components/FSMGraph.tsx lines 17-40
(`abbreviateLabel` per-line body): the trimmed line is looked up in the
fixed abbreviation map. -/
def abbreviations : List (String × String) :=
  [("start_button_pressed", "start_btn"),
   ("stop_button_pressed", "stop_btn"),
   ("reset_pressed", "reset_btn"),
   ("error_occurs", "error"),
   ("timeout_occurs", "timeout"),
   ("shutdown_gracefully", "shutdown"),
   ("initialize_system", "init_sys"),
   ("log_error", "log_err"),
   ("clear_errors", "clear_err"),
   ("display_error_message", "show_err"),
   ("pause_operations", "pause_ops"),
   ("verify_system", "verify_sys"),
   ("perform_shutdown", "shutdown")]

/-- Look up a trimmed line in the abbreviation map. -/
def lookupAbbrev (s : String) : Option String :=
  (abbreviations.find? (fun p => p.1 == s)).map (fun p => p.2)

/-- From src/frontend/src/components/FSMGraph.tsx line 38: one line of
`abbreviateLabel` — the mapped value when the trimmed line is a map key,
otherwise the trimmed line, truncated to its first 10 characters plus an
ellipsis when longer than 12 characters. -/
def abbreviateLine (line : String) : String :=
  let trimmed := jsTrim line
  match lookupAbbrev trimmed with
  | some v => v
  | none => if trimmed.length > 12 then strTake trimmed 10 ++ "..." else trimmed

/-- From src/frontend/src/components/FSMGraph.tsx lines 17-40
(`abbreviateLabel`): each newline-separated line is processed independently
and the results are joined back with newlines. -/
def abbreviateLabel (label : String) : String :=
  String.intercalate "\n" ((splitLines label).map abbreviateLine)

/-- From src/frontend/src/components/FSMGraph.tsx lines 43-67
(`formatEdgeLabel`): an empty label stays empty; otherwise the first line is
the event (abbreviated), a line bracketing a guard is kept verbatim, and a
line containing a slash contributes the action (first slash removed,
trimmed, abbreviated) after a slash. -/
def formatEdgeLabel (e : GraphEdge) : String :=
  if e.label = "" then ""
  else
    let lines := splitLines e.label
    let l1 := abbreviateLabel (lines.headD "")
    let l2 :=
      match lines.find? (fun l => charContained '[' l && charContained ']' l) with
      | some g => l1 ++ "\n" ++ g
      | none => l1
    match lines.find? (fun l => charContained '/' l) with
    | some a => l2 ++ "\n/" ++ abbreviateLabel (jsTrim (removeFirstSlash a))
    | none => l2

/-- From src/frontend/src/components/FSMGraph.tsx lines 307-311
(`processedEdges` element): the label is rewritten through
`formatEdgeLabel` and the original label is kept as the tooltip `title`;
nothing else of the edge is touched. -/
def processEdge (e : GraphEdge) : GraphEdge :=
  { e with label := formatEdgeLabel e, title := some e.label }

/-- From src/frontend/src/components/FSMGraph.tsx lines 307-311
(`processedEdges`): a one-to-one, order-preserving map over the edges. -/
def processedEdges (es : List GraphEdge) : List GraphEdge :=
  es.map processEdge

/-- A concrete edge used to exercise the edge processing. -/
def sampleEdge : GraphEdge :=
  ⟨"idle", "running", "start\n/ initialize_system", none, .user⟩

/-! ## Code download (src/frontend/src/components, CodeGenerator) -/

/-- The pieces of the CodeGenerator component state read by its download
handler: the currently selected template and the last generated code. -/
structure CodeGenState where
  selectedTemplate : String
  generatedCode : Option GeneratedCode
deriving DecidableEq, Repr

/-- From src/frontend/src/components (CodeGenerator `downloadCode`): nothing
happens without a selected template; otherwise the anchor's download name is
`generatedCode?.filename || 'generated_code.txt'` — the filename of the last
generated code when one is held and its filename is non-empty (JavaScript
truthiness), else the fallback. -/
def downloadName (st : CodeGenState) : Option String :=
  if st.selectedTemplate = "" then none
  else
    some
      (match st.generatedCode with
       | some g => if g.filename ≠ "" then g.filename else "generated_code.txt"
       | none => "generated_code.txt")

/-- The successful outcome of generation, when there is one. -/
def genResult (m : FSMModel) (template : String) : Option GeneratedCode :=
  match generate m template with
  | .ok g => some g
  | .error _ => none

/-- A component state in which code was generated for the python template
but the selector has since been moved to the yaml template: the next
download fetches yaml bytes yet names the file after the python output. -/
def staleState : CodeGenState :=
  { selectedTemplate := "yaml_policy"
    generatedCode := genResult exampleModel "python_class" }

/-- A component state in which the held code was generated for the
currently selected template. -/
def freshState : CodeGenState :=
  { selectedTemplate := "python_class"
    generatedCode := genResult exampleModel "python_class" }

/-! ## Scenario submission (src/frontend/src/components/ScenarioEditor.tsx) -/

/-- From src/frontend/src/components/ScenarioEditor.tsx lines 39-49
(`handleSubmit`): blank scenarios are filtered out; the spec is submitted
only when the title is non-empty (JavaScript truthiness) and at least one
scenario remains, always with language "en". -/
def handleSubmit (title : String) (scenarios : List String) :
    Option ScenarioSpec :=
  let validScenarios := scenarios.filter (fun s => decide (jsTrim s ≠ ""))
  if title ≠ "" ∧ 0 < validScenarios.length then
    some { title := title, language := "en", scenarios := validScenarios }
  else none

/-- A suggested transition used to exercise the accept/reject handlers. -/
def suggestedT : Transition :=
  ⟨"running", "stop", none, "shutdown_gracefully", "idle", .llm_inferred⟩

/-- An App state holding the example model and one pending suggestion. -/
def appState0 : AppState :=
  ⟨some exampleModel, [suggestedT]⟩

/-! # Theorems -/

/-! ## Reachability lemmas and C1 -/

theorem mem_stepReach_of_mem {ts : List Transition} {visited : List String}
    {s : String} (h : s ∈ visited) : s ∈ stepReach ts visited :=
  List.mem_append_left _ h

theorem mem_reachIter_of_mem {ts : List Transition} {s : String} :
    ∀ (n : Nat) (visited : List String), s ∈ visited → s ∈ reachIter ts n visited := by
  intro n
  induction n with
  | zero => intro visited h; simpa [reachIter] using h
  | succ k ih =>
    intro visited h
    simpa [reachIter] using ih (stepReach ts visited) (mem_stepReach_of_mem h)

theorem initial_mem_reachableStates (m : FSMModel) :
    m.initial_state ∈ reachableStates m :=
  mem_reachIter_of_mem m.states.length [m.initial_state] (by simp)

/-- C1: for every FSM model, the verify operation returns a
VerificationResult whose `unreachable_states` is a sublist (hence a subset)
of the model's states and never contains the model's `initial_state`. -/
theorem c1_unreachable_subset_and_no_initial (m : FSMModel) :
    (verify m).unreachable_states.Sublist m.states ∧
      m.initial_state ∉ (verify m).unreachable_states := by
  constructor
  · exact List.filter_sublist m.states
  · intro hmem
    have h := List.of_mem_filter hmem
    have h' : m.initial_state ∉ reachableStates m := of_decide_eq_true h
    exact h' (initial_mem_reachableStates m)

/-- Concrete instance of C1 on the specification's example model. -/
theorem c1_unreachable_subset_and_no_initial_witness :
    (verify exampleModel).unreachable_states.Sublist exampleModel.states ∧
      exampleModel.initial_state ∉ (verify exampleModel).unreachable_states :=
  c1_unreachable_subset_and_no_initial exampleModel

/-! ## C3 -/

/-- C3: for every model, the VerificationResult returned by verify has
`is_complete = true` if and only if its `missing_transitions` list is
empty. -/
theorem c3_complete_iff_no_missing (m : FSMModel) :
    (verify m).is_complete = true ↔ (verify m).missing_transitions = [] := by
  simp [verify, List.isEmpty_iff]

/-! ## Simulation lemmas and C2 -/

theorem simulateFrom_length_le (m : FSMModel) :
    ∀ (events : List String) (s : String),
      (simulateFrom m s events).length ≤ events.length := by
  intro events
  induction events with
  | nil => intro s; simp [simulateFrom]
  | cons e rest ih =>
    intro s
    cases h : findTransition m.transitions s e with
    | none => simp [simulateFrom, h]
    | some t =>
      simp only [simulateFrom, h, List.length_cons]
      exact Nat.succ_le_succ (ih t.next_state)

theorem simulateFrom_length_eq_iff (m : FSMModel) :
    ∀ (events : List String) (s : String),
      (simulateFrom m s events).length = events.length ↔
        allEventsMatch m s events = true := by
  intro events
  induction events with
  | nil => intro s; simp [simulateFrom, allEventsMatch]
  | cons e rest ih =>
    intro s
    cases h : findTransition m.transitions s e with
    | none =>
      simp only [simulateFrom, h, allEventsMatch, List.length_cons, List.length_nil]
      constructor
      · intro habs; omega
      · intro habs; cases habs
    | some t =>
      simp only [simulateFrom, h, allEventsMatch, List.length_cons]
      rw [← ih t.next_state]
      omega

/-- C2: for every model, resolved start state and ordered event sequence,
the trace returned by simulate has length at most the length of the input
event sequence, with equality exactly when every event in order finds a
matching transition from the state reached so far; when some event finds no
transition, simulation returns a strictly shorter trace (fail-soft) rather
than raising an exception. -/
theorem c2_simulation_length_invariant (m : FSMModel) (start : Option String)
    (events : List String) :
    (simulate m start events).length ≤ events.length ∧
      ((simulate m start events).length = events.length ↔
        allEventsMatch m (resolveStart m start) events = true) ∧
      (allEventsMatch m (resolveStart m start) events = false →
        (simulate m start events).length < events.length) := by
  refine ⟨simulateFrom_length_le m events _,
    simulateFrom_length_eq_iff m events _, ?_⟩
  intro hfail
  have hle := simulateFrom_length_le m events (resolveStart m start)
  have hne : (simulate m start events).length ≠ events.length := by
    intro heq
    rw [show simulate m start events = simulateFrom m (resolveStart m start) events from rfl,
      simulateFrom_length_eq_iff m events _] at heq
    rw [heq] at hfail
    cases hfail
  exact Nat.lt_of_le_of_ne hle hne

/-- Concrete instance of C2: the specification's three-event example run
covers the whole input, and a run hitting an unhandled event halts early
with a shorter trace. -/
theorem c2_simulation_length_invariant_witness :
    (simulate exampleModel (some "idle") ["start", "error_occurs", "reset"]).length = 3 ∧
      (simulate exampleModel (some "idle") ["start", "stop"]).length < 2 := by
  have h3 := c2_simulation_length_invariant exampleModel (some "idle")
    ["start", "error_occurs", "reset"]
  have h2 := c2_simulation_length_invariant exampleModel (some "idle")
    ["start", "stop"]
  exact ⟨h3.2.1.mpr (by decide), h2.2.2 (by decide)⟩

/-! ## C4 -/

/-- C4: the recognized template ids are exactly the closed set of
python_class, yaml_policy and c_state_machine; for a template id outside
this set generate fails with UnknownTemplate on any structurally valid
model; for a model failing structural validation generate fails with
InvalidModel, so no output is produced; and generation succeeds only on
recognized template ids. -/
theorem c4_template_dispatch (m : FSMModel) (template : String) :
    (template ∈ recognizedTemplates ↔
      template = "python_class" ∨ template = "yaml_policy" ∨
        template = "c_state_machine") ∧
      (validateModel m = true → template ∉ recognizedTemplates →
        generate m template = .error .UnknownTemplate) ∧
      (validateModel m = false → generate m template = .error .InvalidModel) ∧
      (∀ g, generate m template = .ok g → template ∈ recognizedTemplates) := by
  refine ⟨by simp [recognizedTemplates], ?_, ?_, ?_⟩
  · intro hvalid hnot
    simp only [recognizedTemplates, List.mem_cons, List.not_mem_nil, or_false] at hnot
    push_neg at hnot
    obtain ⟨h1, h2, h3⟩ := hnot
    simp [generate, hvalid, h1, h2, h3]
  · intro hinvalid
    simp [generate, hinvalid]
  · intro g hok
    by_cases hv : validateModel m = false
    · simp [generate, hv] at hok
    · rw [Bool.not_eq_false] at hv
      by_cases h1 : template = "python_class"
      · simp [recognizedTemplates, h1]
      · by_cases h2 : template = "yaml_policy"
        · simp [recognizedTemplates, h2]
        · by_cases h3 : template = "c_state_machine"
          · simp [recognizedTemplates, h3]
          · simp [generate, hv, h1, h2, h3] at hok

/-- Concrete witness for C4: the example model is structurally valid, an
unrecognized template id is refused with UnknownTemplate, and a model whose
initial state is undeclared is refused with InvalidModel. -/
theorem c4_template_dispatch_witness :
    validateModel exampleModel = true ∧
      "unknown-template" ∉ recognizedTemplates ∧
      generate exampleModel "unknown-template" = .error .UnknownTemplate ∧
      validateModel badModel = false ∧
      generate badModel "python_class" = .error .InvalidModel := by
  have h := c4_template_dispatch exampleModel "unknown-template"
  have hb := c4_template_dispatch badModel "python_class"
  refine ⟨by decide, by decide, ?_, by decide, ?_⟩
  · exact h.2.1 (by decide) (by decide)
  · exact hb.2.2.1 (by decide)

/-! ## C5 -/

theorem filter_ne_length_lt {l : List Transition} {t : Transition} (h : t ∈ l) :
    (l.filter (fun s => decide (s ≠ t))).length < l.length := by
  induction l with
  | nil => cases h
  | cons a l ih =>
    rw [List.filter_cons]
    by_cases hat : a = t
    · rw [if_neg (by simp [hat])]
      exact Nat.lt_succ_of_le (List.length_filter_le _ l)
    · rw [if_pos (by simp [hat])]
      simp only [List.length_cons]
      have ht : t ∈ l := by
        rcases List.mem_cons.mp h with h1 | h1
        · exact absurd h1.symm hat
        · exact h1
      exact Nat.succ_lt_succ (ih ht)

/-- C5: rejecting a suggested transition leaves the current model untouched
and only the pending suggestion list shrinks (it stays a sublist, strictly
shorter when the rejected suggestion was pending); accepting a suggested
transition replaces the current model by the updated FSMModel, which
contains the accepted transition. -/
theorem c5_reject_noop_accept_updates (st : AppState) (t : Transition)
    (m : FSMModel) :
    (handleRejectTransition st t).currentFSM = st.currentFSM ∧
      (handleRejectTransition st t).suggestions.Sublist st.suggestions ∧
      (t ∈ st.suggestions →
        (handleRejectTransition st t).suggestions.length < st.suggestions.length) ∧
      (st.currentFSM = some m →
        (handleAcceptTransition st t).currentFSM = some (acceptTransition m t) ∧
          t ∈ (acceptTransition m t).transitions) := by
  refine ⟨rfl, List.filter_sublist _, fun h => filter_ne_length_lt h, fun hm => ?_⟩
  constructor
  · simp [handleAcceptTransition, hm]
  · simp [acceptTransition]

/-- Concrete instance of C5 on the example model with one pending
suggestion. -/
theorem c5_reject_noop_accept_updates_witness :
    (handleRejectTransition appState0 suggestedT).currentFSM = some exampleModel ∧
      (handleRejectTransition appState0 suggestedT).suggestions.length < 1 ∧
      (handleAcceptTransition appState0 suggestedT).currentFSM =
        some (acceptTransition exampleModel suggestedT) ∧
      suggestedT ∈ (acceptTransition exampleModel suggestedT).transitions := by
  have h := c5_reject_noop_accept_updates appState0 suggestedT exampleModel
  exact ⟨h.1, h.2.2.1 (by decide), (h.2.2.2 rfl).1, (h.2.2.2 rfl).2⟩

/-! ## C6 -/

/-- C6 (code bug): `updateTransition` spreads the array into a new array but
assigns the field through the shared object reference, so editing one field
of one transition changes the value observed through the previously held
`transitions` array — the previously observed Transition value does not stay
unchanged, contradicting the immutable-snapshot discipline. -/
theorem c6_edit_mutates_shared_transition :
    readRef heap0 0 = some heapTransition ∧
      parentTransitionRefs.get? 0 = some 0 ∧
      readRef (updateTransition heap0 parentTransitionRefs 0 TField.event "go").1 0 =
        some { heapTransition with event := "go" } ∧
      readRef (updateTransition heap0 parentTransitionRefs 0 TField.event "go").1 0 ≠
        readRef heap0 0 := by
  decide

/-! ## C7 -/

/-- C7: the graph projection yields one node per state in order (the node
for the initial state and only it is tagged `initial`) and one edge per
transition in order; the front end's edge processing is a one-to-one,
order-preserving map that rewrites only the label, stores the original
label unchanged as the tooltip title, and leaves the remaining edge fields
unchanged. -/
theorem c7_graph_projection_and_edge_processing (m : FSMModel)
    (es : List GraphEdge) :
    (toGraph m).1.length = m.states.length ∧
      (∀ i, ((toGraph m).1.get? i).map GraphNode.id = m.states.get? i) ∧
      (∀ n, n ∈ (toGraph m).1 → (n.initial = true ↔ n.id = m.initial_state)) ∧
      (toGraph m).2.length = m.transitions.length ∧
      (∀ i, (toGraph m).2.get? i =
        (m.transitions.get? i).map
          (fun t => ⟨t.state, t.next_state, compositeLabel t, none, t.source⟩)) ∧
      (processedEdges es).length = es.length ∧
      (∀ i, (processedEdges es).get? i = (es.get? i).map processEdge) ∧
      (∀ e, (processEdge e).src = e.src ∧ (processEdge e).dst = e.dst ∧
        (processEdge e).provenance = e.provenance ∧
        (processEdge e).title = some e.label ∧
        (processEdge e).label = formatEdgeLabel e) := by
  refine ⟨by simp [toGraph], ?_, ?_, by simp [toGraph], ?_,
    by simp [processedEdges], ?_, ?_⟩
  · intro i
    simp only [toGraph, List.get?_map]
    cases hm : m.states[i]? <;> simp [hm]
  · intro n hn
    simp only [toGraph, List.mem_map] at hn
    obtain ⟨s, _, rfl⟩ := hn
    simp [beq_iff_eq]
  · intro i
    simp [toGraph, List.get?_map]
  · intro i
    simp [processedEdges, List.get?_map]
  · intro e
    exact ⟨rfl, rfl, rfl, rfl, rfl⟩

/-- Concrete instance of C7: the first node of the example model's graph is
the initial `idle` state, its tag agrees with being the initial state, and
processing a sample edge keeps the original label as the tooltip. -/
theorem c7_graph_projection_and_edge_processing_witness :
    ((toGraph exampleModel).1.get? 0).map GraphNode.id = some "idle" ∧
      ((⟨"idle", "idle", true⟩ : GraphNode).initial = true ↔
        (⟨"idle", "idle", true⟩ : GraphNode).id = exampleModel.initial_state) ∧
      (processedEdges [sampleEdge]).get? 0 = some (processEdge sampleEdge) ∧
      (processEdge sampleEdge).title = some "start\n/ initialize_system" := by
  have h := c7_graph_projection_and_edge_processing exampleModel [sampleEdge]
  refine ⟨(h.2.1 0).trans (by decide),
    h.2.2.1 ⟨"idle", "idle", true⟩ (by decide),
    (h.2.2.2.2.2.2.1 0).trans (by decide),
    (h.2.2.2.2.2.2.2 sampleEdge).2.2.2.1⟩

/-! ## C8 -/

/-- C8 counterexample: with code last generated for the python template and
the selector since moved to the yaml template, the next download delivers
the yaml bytes under the stale python file name — the delivered name
differs from the filename of the GeneratedCode produced for that model and
template. -/
theorem c8_download_name_counterexample :
    downloadName staleState = some "fsm_machine.py" ∧
      (genResult exampleModel staleState.selectedTemplate).map
          GeneratedCode.filename = some "fsm_policy.yaml" ∧
      downloadName staleState ≠
        (genResult exampleModel staleState.selectedTemplate).map
          GeneratedCode.filename := by
  decide

/-- C8 (amended): the delivered file name equals the filename of the
GeneratedCode currently held by the editor (with the fixed fallback when
none is held); in the generate-then-download flow — when the held code was
produced for the currently selected template and model — it therefore
equals the filename of the GeneratedCode produced for that model and
template. -/
theorem c8_download_name_from_held_code (st : CodeGenState) (m : FSMModel)
    (g : GeneratedCode) (h1 : st.selectedTemplate ≠ "")
    (h2 : st.generatedCode = some g) (h3 : g.filename ≠ "")
    (h4 : genResult m st.selectedTemplate = some g) :
    downloadName st = some g.filename ∧
      (genResult m st.selectedTemplate).map GeneratedCode.filename =
        some g.filename := by
  refine ⟨?_, by rw [h4]; rfl⟩
  simp [downloadName, h1, h2, h3]

/-- Concrete instance of the amended C8: generating for the python template
and downloading without moving the selector delivers the python file
name. -/
theorem c8_download_name_from_held_code_witness :
    downloadName freshState = some "fsm_machine.py" ∧
      (genResult exampleModel freshState.selectedTemplate).map
        GeneratedCode.filename = some "fsm_machine.py" := by
  have h := c8_download_name_from_held_code freshState exampleModel
    ⟨"python", "fsm_machine.py", "# python class\n" ++ emitBody exampleModel⟩
    (by decide) rfl (by decide) rfl
  exact h

/-! ## C9 -/

/-- C9: every parse-scenarios request actually submitted by the editor has
language exactly "en", a non-empty title, and a non-empty scenario list in
which no element is empty or whitespace-only (blank scenarios having been
filtered out before submission). -/
theorem c9_submitted_request_wellformed (title : String)
    (scenarios : List String) (spec : ScenarioSpec)
    (h : handleSubmit title scenarios = some spec) :
    spec.language = "en" ∧ spec.title ≠ "" ∧ spec.scenarios ≠ [] ∧
      ∀ s ∈ spec.scenarios, s ≠ "" ∧ jsTrim s ≠ "" := by
  simp only [handleSubmit] at h
  split at h
  case isTrue hc =>
    obtain ⟨ht, hlen⟩ := hc
    simp only [Option.some.injEq] at h
    subst h
    refine ⟨rfl, ht, List.ne_nil_of_length_pos hlen, ?_⟩
    intro s hs
    have hmem := List.of_mem_filter hs
    have htr : jsTrim s ≠ "" := of_decide_eq_true hmem
    refine ⟨?_, htr⟩
    intro hs0
    subst hs0
    exact htr (by decide)
  case isFalse => simp at h

/-- Concrete instance of C9: a blank scenario is dropped and the submitted
request is well-formed. -/
theorem c9_submitted_request_wellformed_witness :
    (⟨"Door", "en", ["Given a, when b, then c"]⟩ : ScenarioSpec).language = "en" ∧
      (⟨"Door", "en", ["Given a, when b, then c"]⟩ : ScenarioSpec).title ≠ "" ∧
      (⟨"Door", "en", ["Given a, when b, then c"]⟩ : ScenarioSpec).scenarios ≠ [] ∧
      ("Given a, when b, then c" ≠ "" ∧ jsTrim "Given a, when b, then c" ≠ "") := by
  have h := c9_submitted_request_wellformed "Door" ["  ", "Given a, when b, then c"]
    ⟨"Door", "en", ["Given a, when b, then c"]⟩ (by decide)
  exact ⟨h.1, h.2.1, h.2.2.1, h.2.2.2 "Given a, when b, then c" (by decide)⟩

/-! ## C10 -/

theorem strTake_append_ellipsis_length (s : String) (h : 12 < s.length) :
    (strTake s 10 ++ "...").length = 13 := by
  have h' : 12 < s.data.length := h
  have h10 : (strTake s 10).length = 10 := by
    show (s.data.take 10).length = 10
    rw [List.length_take]
    omega
  rw [String.length_append, h10]
  decide

/-- C10: abbreviateLabel processes each newline-separated line
independently; a trimmed line that is a key of the fixed abbreviation map
is replaced by its mapped value; otherwise the trimmed line is returned
unchanged when its length is at most 12 characters and is truncated to its
first 10 characters followed by an ellipsis — output length exactly 13 —
when longer. -/
theorem c10_abbreviate_per_line (label line : String) :
    abbreviateLabel label =
        String.intercalate "\n" ((splitLines label).map abbreviateLine) ∧
      (∀ v, lookupAbbrev (jsTrim line) = some v → abbreviateLine line = v) ∧
      (lookupAbbrev (jsTrim line) = none → (jsTrim line).length ≤ 12 →
        abbreviateLine line = jsTrim line) ∧
      (lookupAbbrev (jsTrim line) = none → 12 < (jsTrim line).length →
        abbreviateLine line = strTake (jsTrim line) 10 ++ "..." ∧
          (abbreviateLine line).length = 13) := by
  refine ⟨rfl, ?_, ?_, ?_⟩
  · intro v hv
    simp [abbreviateLine, hv]
  · intro hnone hle
    simp only [abbreviateLine, hnone]
    rw [if_neg (by omega)]
  · intro hnone hgt
    have he : abbreviateLine line = strTake (jsTrim line) 10 ++ "..." := by
      simp only [abbreviateLine, hnone]
      rw [if_pos (by omega)]
    exact ⟨he, by rw [he]; exact strTake_append_ellipsis_length _ hgt⟩

/-- Concrete instance of C10: a map key is abbreviated, a short line is
trimmed and kept, a 13-character line is truncated to 13 characters, and a
multi-line label is processed line by line. -/
theorem c10_abbreviate_per_line_witness :
    abbreviateLine "error_occurs" = "error" ∧
      abbreviateLine " idle " = "idle" ∧
      abbreviateLine "display_error" = "display_er..." ∧
      (abbreviateLine "display_error").length = 13 ∧
      abbreviateLabel "error_occurs\ndisplay_error" =
        String.intercalate "\n"
          ((splitLines "error_occurs\ndisplay_error").map abbreviateLine) := by
  have h1 := c10_abbreviate_per_line "" "error_occurs"
  have h2 := c10_abbreviate_per_line "" " idle "
  have h3 := c10_abbreviate_per_line "error_occurs\ndisplay_error" "display_error"
  have htr := h3.2.2.2 (by decide) (by decide)
  exact ⟨h1.2.1 "error" (by decide),
    (h2.2.2.1 (by decide) (by decide)).trans (by decide),
    htr.1.trans (by decide), htr.2, h3.1⟩

end AutoState
